import Mathlib

/-!
Verification development for the brave-search MCP server
(src/server.py, src/tools/base.py, src/tools/search.py).

The repository exposes four Brave search operations as MCP tools behind two
transports (SSE and streamable HTTP).  This file gives a shallow embedding of
the credential context, the four search operations' request construction, and
the tool dispatcher, and proves or refutes the frozen specification claims
against it.
-/

namespace BraveMCP

/-! ## Python value model

Query-parameter dictionaries in the source hold strings, ints and None.
Insertion-ordered Python dicts with distinct literal keys are modelled as
association lists in insertion order.
-/

/-- A Python value as it occurs in the params/arguments dicts of the source:
a string, an int, or None. -/
inductive PyVal where
  | vNone : PyVal
  | vStr (s : String) : PyVal
  | vInt (n : Int) : PyVal
deriving DecidableEq

/-- A Python dict with string keys, in insertion order. -/
abbrev PyDict := List (String × PyVal)

/-- Python None-or-string parameter, as a dict value. -/
def optStrVal : Option String → PyVal
  | none => PyVal.vNone
  | some s => PyVal.vStr s

/-- Python None-or-int parameter, as a dict value. -/
def optIntVal : Option Int → PyVal
  | none => PyVal.vNone
  | some n => PyVal.vInt n

/-- The `for k, v in param_list: if v is not None: params[k] = v` loop of
src/tools/search.py: keep exactly the entries whose value is present. -/
def presentEntries (l : List (String × Option PyVal)) : List (String × PyVal) :=
  l.filterMap fun kv => kv.2.map fun v => (kv.1, v)

/-- The key list of a params dict. -/
def keys (l : PyDict) : List String := l.map Prod.fst

/-- Whether a value is Python None. -/
def PyVal.isNone : PyVal → Bool
  | PyVal.vNone => true
  | _ => false

/-- The query parameters the `requests` library actually places on the
outbound URL: requests documents that any dict key whose value is None is
not added to the query string, so None-valued entries are dropped. -/
def sentParams (l : PyDict) : PyDict :=
  l.filter fun kv => !kv.2.isNone

/-- Dict lookup by key (first occurrence; keys in the source dicts are
distinct literals). -/
def dictGet (l : PyDict) (k : String) : Option PyVal :=
  match l with
  | [] => none
  | kv :: rest => if kv.1 = k then some kv.2 else dictGet rest k

/-! ## src/tools/base.py — credential resolution

`auth_token_context : ContextVar[str]` is exchange-scoped storage; a single
exchange's view of it is an `Option String` (`none` models the ContextVar
being unset, where `.get()` raises LookupError).  `os.getenv` at resolution
time is `env : Option String`.
-/

/-- `get_auth_token` (src/tools/base.py lines 14-22): return the context
value if the ContextVar is set; on LookupError read the environment variable
`BRAVE_SEARCH_API_KEY`; `if not token: raise RuntimeError` treats an unset or
empty environment value as missing.  `none` models the RuntimeError. -/
def get_auth_token (ctxVal : Option String) (env : Option String) : Option String :=
  match ctxVal with
  | some t => some t
  | none =>
    match env with
    | some t => if t = "" then none else some t
    | none => none

/-- `get_brave_client` (src/tools/base.py lines 24-34): `client = auth_token`
and the RuntimeError is caught and converted to `None` (here `none`). -/
def get_brave_client (ctxVal : Option String) (env : Option String) : Option String :=
  get_auth_token ctxVal env

/-! ## src/server.py — transports and the ContextVar store

A `ContextVar` holds an independent value per execution context; each
exchange (one SSE connection or one streamable-HTTP request) runs in its own
context.  The store is modelled as a map from exchange id to the ContextVar's
state in that exchange's context (`none` = never set).
-/

/-- The process-wide view of `auth_token_context`: per-exchange slots. -/
def Store := Nat → Option String

/-- `auth_token_context.set(v)` executed inside exchange `e`: only exchange
`e`'s slot changes (ContextVar writes are context-local). -/
def ctxSet (s : Store) (e : Nat) (v : String) : Store :=
  fun i => if i = e then some v else s i

/-- `auth_token_context.get()` inside exchange `e` (before default handling). -/
def ctxGet (s : Store) (e : Nat) : Option String := s e

/-- `auth_token_context.reset(token)` inside exchange `e`: restore the prior
value recorded in the token returned by `set`. -/
def ctxReset (s : Store) (e : Nat) (prior : Option String) : Store :=
  fun i => if i = e then prior else s i

/-- The value both transports store: `auth_token_context.set(auth_token or "")`
(src/server.py lines 582 and 615) — an absent or empty header becomes `""`. -/
def transportContextValue (hdr : Option String) : String :=
  match hdr with
  | none => ""
  | some h => h

/-- Connection start of `handle_sse` / `handle_streamable_http`: read the
`x-auth-token` header, set the ContextVar in this exchange's context, and keep
the reset token (the prior value). -/
def transportConnect (s : Store) (e : Nat) (hdr : Option String) : Store × Option String :=
  (ctxSet s e (transportContextValue hdr), ctxGet s e)

/-- How the body of an exchange ends: normal completion, a raised exception,
or task cancellation. -/
inductive ExitPath where
  | normal : ExitPath
  | error : ExitPath
  | cancelled : ExitPath
deriving DecidableEq

/-- Context lifecycle of `handle_sse` (src/server.py lines 575-593): set the
ContextVar, run the SSE session inside `try`, and `auth_token_context.reset`
in `finally`.  Python executes the `finally` block on normal return, on a
propagating exception, and on asyncio task cancellation alike, so every exit
path performs the reset. -/
def handle_sse_ctx (s : Store) (e : Nat) (hdr : Option String) (p : ExitPath) : Store :=
  let conn := transportConnect s e hdr
  match p with
  | ExitPath.normal => ctxReset conn.1 e conn.2
  | ExitPath.error => ctxReset conn.1 e conn.2
  | ExitPath.cancelled => ctxReset conn.1 e conn.2

/-- Context lifecycle of `handle_streamable_http` (src/server.py lines
603-619): identical set / try / finally-reset discipline around
`session_manager.handle_request`. -/
def handle_streamable_http_ctx (s : Store) (e : Nat) (hdr : Option String) (p : ExitPath) : Store :=
  let conn := transportConnect s e hdr
  match p with
  | ExitPath.normal => ctxReset conn.1 e conn.2
  | ExitPath.error => ctxReset conn.1 e conn.2
  | ExitPath.cancelled => ctxReset conn.1 e conn.2

/-! ## src/tools/search.py — the four search operations

Each operation is embedded in three layers, following the source:
its bound body parameters (a structure, one field per Python parameter),
Python keyword binding with the signature defaults (an omitted argument takes
the default, an explicitly passed value — including None — overrides it),
and the request construction of the body.  The two float-typed location
parameters of `brave_search` are only ever used through `str(v)`, so they are
modelled by their decimal string. -/

/-- Bound parameters of `brave_search` (src/tools/search.py lines 9-34). -/
structure WebBody where
  query : String
  count : Option Int
  country : Option String
  search_lang : Option String
  ui_lang : Option String
  offset : Option Int
  safesearch : Option String
  spellcheck : Option String
  freshness : Option String
  text_decorations : Option String
  result_filter : Option String
  units : Option String
  goggles : Option String
  extra_snippets : Option String
  summary : Option String
  enable_rich_callback : Option String
  x_loc_lat : Option String
  x_loc_long : Option String
  x_loc_timezone : Option String
  x_loc_city : Option String
  x_loc_state : Option String
  x_loc_state_name : Option String
  x_loc_country : Option String
  x_loc_postal_code : Option String
deriving DecidableEq

/-- Bound parameters of `brave_image_search` (src/tools/search.py 142-149). -/
structure ImageBody where
  query : String
  count : Option Int
  search_lang : Option String
  country : Option String
  safesearch : Option String
  spellcheck : Option String
deriving DecidableEq

/-- Bound parameters of `brave_news_search` (src/tools/search.py 216-228). -/
structure NewsBody where
  query : String
  count : Option Int
  search_lang : Option String
  ui_lang : Option String
  country : Option String
  safesearch : Option String
  offset : Option Int
  spellcheck : Option String
  freshness : Option String
  extra_snippets : Option String
  goggles : Option String
deriving DecidableEq

/-- Bound parameters of `brave_video_search` (src/tools/search.py 315-325). -/
structure VideoBody where
  query : String
  count : Option Int
  safesearch : Option String
  search_lang : Option String
  ui_lang : Option String
  country : Option String
  offset : Option Int
  spellcheck : Option String
  freshness : Option String
deriving DecidableEq

/-- Python keyword binding for `brave_search`: signature defaults are
`count: int = 5` and None for every other optional parameter.  Each argument
is `none` when the caller omits it, `some v` (v possibly Python None) when the
caller passes it. -/
def bindWeb (query : String)
    (count : Option (Option Int))
    (country search_lang ui_lang : Option (Option String))
    (offset : Option (Option Int))
    (safesearch spellcheck freshness text_decorations result_filter units
      goggles extra_snippets summary enable_rich_callback : Option (Option String))
    (x_loc_lat x_loc_long x_loc_timezone x_loc_city x_loc_state
      x_loc_state_name x_loc_country x_loc_postal_code : Option (Option String)) :
    WebBody :=
  WebBody.mk query (count.getD (some 5)) (country.getD none) (search_lang.getD none)
    (ui_lang.getD none) (offset.getD none) (safesearch.getD none)
    (spellcheck.getD none) (freshness.getD none) (text_decorations.getD none)
    (result_filter.getD none) (units.getD none) (goggles.getD none)
    (extra_snippets.getD none) (summary.getD none) (enable_rich_callback.getD none)
    (x_loc_lat.getD none) (x_loc_long.getD none) (x_loc_timezone.getD none)
    (x_loc_city.getD none) (x_loc_state.getD none) (x_loc_state_name.getD none)
    (x_loc_country.getD none) (x_loc_postal_code.getD none)

/-- Python keyword binding for `brave_image_search`: signature defaults are
`count: int = 5` and None for the rest. -/
def bindImage (query : String) (count : Option (Option Int))
    (search_lang country safesearch spellcheck : Option (Option String)) :
    ImageBody :=
  ImageBody.mk query (count.getD (some 5)) (search_lang.getD none)
    (country.getD none) (safesearch.getD none) (spellcheck.getD none)

/-- Python keyword binding for `brave_news_search`: signature defaults are
`count: int = 5` and None for the rest. -/
def bindNews (query : String) (count : Option (Option Int))
    (search_lang ui_lang country safesearch : Option (Option String))
    (offset : Option (Option Int))
    (spellcheck freshness extra_snippets goggles : Option (Option String)) :
    NewsBody :=
  NewsBody.mk query (count.getD (some 5)) (search_lang.getD none)
    (ui_lang.getD none) (country.getD none) (safesearch.getD none)
    (offset.getD none) (spellcheck.getD none) (freshness.getD none)
    (extra_snippets.getD none) (goggles.getD none)

/-- Python keyword binding for `brave_video_search`: signature defaults are
`count: int = 5`, `safesearch: str = "off"`, and None for the rest
(src/tools/search.py lines 315-325; note the signature default for count is
5 although the function's own docstring documents 20). -/
def bindVideo (query : String) (count : Option (Option Int))
    (safesearch search_lang ui_lang country : Option (Option String))
    (offset : Option (Option Int))
    (spellcheck freshness : Option (Option String)) :
    VideoBody :=
  VideoBody.mk query (count.getD (some 5)) (safesearch.getD (some "off"))
    (search_lang.getD none) (ui_lang.getD none) (country.getD none)
    (offset.getD none) (spellcheck.getD none) (freshness.getD none)

/-- The optional query-parameter list of `brave_search` (src/tools/search.py
lines 112-127), as (key, None-or-value) pairs. -/
def webOpts (b : WebBody) : List (String × Option PyVal) :=
  [("country", b.country.map PyVal.vStr),
   ("search_lang", b.search_lang.map PyVal.vStr),
   ("ui_lang", b.ui_lang.map PyVal.vStr),
   ("offset", b.offset.map PyVal.vInt),
   ("safesearch", b.safesearch.map PyVal.vStr),
   ("spellcheck", b.spellcheck.map PyVal.vStr),
   ("freshness", b.freshness.map PyVal.vStr),
   ("text_decorations", b.text_decorations.map PyVal.vStr),
   ("result_filter", b.result_filter.map PyVal.vStr),
   ("units", b.units.map PyVal.vStr),
   ("goggles", b.goggles.map PyVal.vStr),
   ("extra_snippets", b.extra_snippets.map PyVal.vStr),
   ("summary", b.summary.map PyVal.vStr),
   ("enable_rich_callback", b.enable_rich_callback.map PyVal.vStr)]

/-- `params` of `brave_search` (src/tools/search.py lines 109-130):
`{"q": query, "count": count}` then the present optional parameters. -/
def braveSearchParams (b : WebBody) : PyDict :=
  [("q", PyVal.vStr b.query), ("count", optIntVal b.count)]
    ++ presentEntries (webOpts b)

/-- The optional query-parameter list of `brave_image_search`
(src/tools/search.py lines 196-201). -/
def imageOpts (b : ImageBody) : List (String × Option PyVal) :=
  [("search_lang", b.search_lang.map PyVal.vStr),
   ("country", b.country.map PyVal.vStr),
   ("safesearch", b.safesearch.map PyVal.vStr),
   ("spellcheck", b.spellcheck.map PyVal.vStr)]

/-- `params` of `brave_image_search` (src/tools/search.py lines 191-204):
`{"q": query, "count": count}` then the present optional parameters. -/
def braveImageParams (b : ImageBody) : PyDict :=
  [("q", PyVal.vStr b.query), ("count", optIntVal b.count)]
    ++ presentEntries (imageOpts b)

/-- The optional query-parameter list of `brave_news_search`
(src/tools/search.py lines 290-300). -/
def newsOpts (b : NewsBody) : List (String × Option PyVal) :=
  [("search_lang", b.search_lang.map PyVal.vStr),
   ("ui_lang", b.ui_lang.map PyVal.vStr),
   ("country", b.country.map PyVal.vStr),
   ("safesearch", b.safesearch.map PyVal.vStr),
   ("offset", b.offset.map PyVal.vInt),
   ("spellcheck", b.spellcheck.map PyVal.vStr),
   ("freshness", b.freshness.map PyVal.vStr),
   ("extra_snippets", b.extra_snippets.map PyVal.vStr),
   ("goggles", b.goggles.map PyVal.vStr)]

/-- `params` of `brave_news_search` (src/tools/search.py lines 288-303). -/
def braveNewsParams (b : NewsBody) : PyDict :=
  [("q", PyVal.vStr b.query), ("count", optIntVal b.count)]
    ++ presentEntries (newsOpts b)

/-- The optional query-parameter list of `brave_video_search`
(src/tools/search.py lines 384-394). -/
def videoOpts (b : VideoBody) : List (String × Option PyVal) :=
  [("search_lang", b.search_lang.map PyVal.vStr),
   ("ui_lang", b.ui_lang.map PyVal.vStr),
   ("country", b.country.map PyVal.vStr),
   ("offset", b.offset.map PyVal.vInt),
   ("spellcheck", b.spellcheck.map PyVal.vStr),
   ("freshness", b.freshness.map PyVal.vStr)]

/-- `params` of `brave_video_search` (src/tools/search.py lines 382-394):
`{"q": query, "count": count, "safesearch": safesearch}` then the present
optional parameters. -/
def braveVideoParams (b : VideoBody) : PyDict :=
  [("q", PyVal.vStr b.query), ("count", optIntVal b.count),
   ("safesearch", optStrVal b.safesearch)]
    ++ presentEntries (videoOpts b)

/-! ### Execution of the operation bodies

Each run function returns the dict the operation returns together with the
list of HTTP GETs it performed (empty = no network activity).  The upstream
outcome is a parameter: `some body` models `response.json()` succeeding with
that body, `none` models any exception out of `requests.get`/`.json()`
(connection error, timeout, non-JSON body). -/

/-- An outbound HTTP GET as issued by `requests.get(url, headers, params)`. -/
structure HttpGet where
  url : String
  headers : List (String × String)
  params : PyDict
deriving DecidableEq

/-- The fixed header trio of every operation (src/tools/search.py):
Accept, Accept-Encoding, and the resolved subscription token. -/
def baseHeaders (token : String) : List (String × String) :=
  [("Accept", "application/json"), ("Accept-Encoding", "gzip"),
   ("x-subscription-token", token)]

/-- Keep the entries of a header dict whose value is not None.  This is both
the shape of the source's `if v is not None: headers[k] = str(v)` loop and of
the `requests` library's header merge (`merge_setting`, sessions.py), which
removes any header key whose value is None before the request is sent. -/
def dropNoneValues (l : List (String × Option String)) : List (String × String) :=
  l.filterMap fun kv => kv.2.map fun v => (kv.1, v)

/-- The optional location header list of `brave_search` (src/tools/search.py
lines 95-104), as (key, None-or-value) pairs; the two float-typed entries
appear as their `str(v)` form. -/
def webLocHeaderEntries (b : WebBody) : List (String × Option String) :=
  [("x-loc-lat", b.x_loc_lat), ("x-loc-long", b.x_loc_long),
   ("x-loc-timezone", b.x_loc_timezone), ("x-loc-city", b.x_loc_city),
   ("x-loc-state", b.x_loc_state), ("x-loc-state-name", b.x_loc_state_name),
   ("x-loc-country", b.x_loc_country),
   ("x-loc-postal-code", b.x_loc_postal_code)]

/-- The location headers actually added by the loop of src/tools/search.py
lines 105-107: only those that are not None. -/
def webLocHeaders (b : WebBody) : List (String × String) :=
  dropNoneValues (webLocHeaderEntries b)

/-- The headers dict `brave_search` hands to `requests.get`
(src/tools/search.py lines 88-107): the fixed pair, the subscription token
straight from `get_brave_client()` (which may be None), and the present
location headers. -/
def webHeaders (client : Option String) (b : WebBody) : List (String × Option String) :=
  [("Accept", some "application/json"), ("Accept-Encoding", some "gzip"),
   ("x-subscription-token", client)]
    ++ (webLocHeaders b).map fun kv => (kv.1, some kv.2)

/-- The GET `brave_search` issues: `requests` merges the headers dict with
`merge_setting` (sessions.py), deleting any None-valued key, so a None
subscription token is silently dropped and the request is sent without the
x-subscription-token header — no exception, no aborted call. -/
def webRequest (client : Option String) (b : WebBody) : HttpGet :=
  HttpGet.mk "https://api.search.brave.com/res/v1/web/search"
    (dropNoneValues (webHeaders client b)) (braveSearchParams b)

/-- `{"error": msg}` as returned by the except branches and token checks. -/
def errDict (msg : String) : PyDict := [("error", PyVal.vStr msg)]

/-- The error dict of the image/news/video token pre-check. -/
def missingTokenDict : PyDict := errDict "Missing Brave subscription token"

/-- Execution of `brave_search` (src/tools/search.py lines 87-139).  There is
no token pre-check: `get_brave_client()` is placed straight into the headers
dict, and the GET is issued in every credential state — a None client merely
loses its header to the `requests` header merge (see `webRequest`), an empty
client is sent as an empty token.  The JSON body is passed through; any
exception out of `requests.get`/`.json()` yields the error dict. -/
def brave_search_run (ctxVal env : Option String) (b : WebBody)
    (upstream : Option PyDict) : PyDict × List HttpGet :=
  let req := webRequest (get_brave_client ctxVal env) b
  match upstream with
  | some body => (body, [req])
  | none =>
    (errDict ("Could not complete Brave search for query: " ++ b.query), [req])

/-- Execution of `brave_image_search` (src/tools/search.py lines 179-213):
`token = get_brave_client(); if not token: return {"error": ...}` — a None or
empty token returns the error dict with no network call; otherwise one GET. -/
def brave_image_search_run (ctxVal env : Option String) (b : ImageBody)
    (upstream : Option PyDict) : PyDict × List HttpGet :=
  match get_brave_client ctxVal env with
  | none => (missingTokenDict, [])
  | some token =>
    if token = "" then (missingTokenDict, [])
    else
      let req := HttpGet.mk "https://api.search.brave.com/res/v1/images/search"
        (baseHeaders token) (braveImageParams b)
      match upstream with
      | some body => (body, [req])
      | none =>
        (errDict ("Could not complete Brave image search for query: " ++ b.query), [req])

/-- Execution of `brave_news_search` (src/tools/search.py lines 276-312):
same token pre-check as image search, then one GET. -/
def brave_news_search_run (ctxVal env : Option String) (b : NewsBody)
    (upstream : Option PyDict) : PyDict × List HttpGet :=
  match get_brave_client ctxVal env with
  | none => (missingTokenDict, [])
  | some token =>
    if token = "" then (missingTokenDict, [])
    else
      let req := HttpGet.mk "https://api.search.brave.com/res/v1/news/search"
        (baseHeaders token) (braveNewsParams b)
      match upstream with
      | some body => (body, [req])
      | none =>
        (errDict ("Could not complete Brave news search for query: " ++ b.query), [req])

/-- Execution of `brave_video_search` (src/tools/search.py lines 370-403):
same token pre-check as image search, then one GET. -/
def brave_video_search_run (ctxVal env : Option String) (b : VideoBody)
    (upstream : Option PyDict) : PyDict × List HttpGet :=
  match get_brave_client ctxVal env with
  | none => (missingTokenDict, [])
  | some token =>
    if token = "" then (missingTokenDict, [])
    else
      let req := HttpGet.mk "https://api.search.brave.com/res/v1/videos/search"
        (baseHeaders token) (braveVideoParams b)
      match upstream with
      | some body => (body, [req])
      | none =>
        (errDict ("Could not complete Brave video search for query: " ++ b.query), [req])

/-! ## src/server.py — call_tool dispatch (lines 479-568)

Every branch runs `result = brave_xxx(...)` on an `async def` function
WITHOUT awaiting it, so `result` is a coroutine object, not the dict; the
operation body never executes on this path.  `json.dumps(result, indent=2)`
then raises TypeError, which the branch-local `except Exception` converts to
an error text content.  Only `arguments["query"]` can raise earlier
(KeyError); every `arguments.get(...)` returns None when absent. -/

/-- A content item of the tool result (only text is ever produced). -/
inductive ToolContent where
  | text (s : String) : ToolContent
deriving DecidableEq

/-- The value `result` holds in a dispatch branch: a dict would arise from an
awaited call, but the dispatcher holds the unawaited coroutine of the named
operation. -/
inductive PyObjJ where
  | dict (d : PyDict) : PyObjJ
  | coroutine (op : String) : PyObjJ
deriving DecidableEq

/-- Message of the TypeError `json.dumps` raises on a coroutine object. -/
def coroutineDumpError : String :=
  "Object of type coroutine is not JSON serializable"

/-- Serialization of a dict value by `json.dumps` (string escaping and the
indent=2 layout are not modelled — no claim depends on them, and this branch
is unreachable from `call_tool`, whose value is always a coroutine). -/
def json_dumps_val : PyVal → String
  | PyVal.vNone => "null"
  | PyVal.vStr s => "\x22" ++ s ++ "\x22"
  | PyVal.vInt n => toString n

/-- `json.dumps` on a dict body. -/
def json_dumps_dict (d : PyDict) : String :=
  "\x7b" ++ String.intercalate ", "
    (d.map fun kv => "\x22" ++ kv.1 ++ "\x22: " ++ json_dumps_val kv.2) ++ "\x7d"

/-- `json.dumps(result, indent=2)`: serializes a dict, raises TypeError on a
coroutine object.  `Except.error` carries `str(e)`. -/
def json_dumps : PyObjJ → Except String String
  | PyObjJ.dict d => Except.ok (json_dumps_dict d)
  | PyObjJ.coroutine _ => Except.error coroutineDumpError

/-- `str(KeyError(k))` — Python renders the missing key in quotes. -/
def keyErrorMsg (k : String) : String := "\x27" ++ k ++ "\x27"

/-- The four registered tool names (src/server.py lines 484, 517, 532, 552). -/
def registryNames : List String :=
  ["brave_search", "brave_image_search", "brave_news_search", "brave_video_search"]

/-- One dispatch branch of `call_tool`: inside `try`, `arguments["query"]`
either raises KeyError (caught, yielding `"Error: " + str(e)`), or the branch
builds the coroutine of operation `op` without awaiting it and
`json.dumps(result, indent=2)` raises TypeError (caught the same way).  The
optional arguments are read with `arguments.get`, which never raises. -/
def dispatchBranch (op : String) (arguments : PyDict) : List ToolContent :=
  match dictGet arguments "query" with
  | none => [ToolContent.text ("Error: " ++ keyErrorMsg "query")]
  | some _ =>
    match json_dumps (PyObjJ.coroutine op) with
    | Except.ok s => [ToolContent.text s]
    | Except.error e => [ToolContent.text ("Error: " ++ e)]

/-- `call_tool` (src/server.py lines 479-568): an if/elif chain over the four
tool names with no else branch — an unknown name falls through and the
function returns None (`none` here). -/
def call_tool (name : String) (arguments : PyDict) : Option (List ToolContent) :=
  if name = "brave_search" then some (dispatchBranch "brave_search" arguments)
  else if name = "brave_image_search" then
    some (dispatchBranch "brave_image_search" arguments)
  else if name = "brave_news_search" then
    some (dispatchBranch "brave_news_search" arguments)
  else if name = "brave_video_search" then
    some (dispatchBranch "brave_video_search" arguments)
  else none

/-! ## Helper lemmas and shared example inputs -/

theorem sentParams_append (a b : PyDict) :
    sentParams (a ++ b) = sentParams a ++ sentParams b := by
  simp [sentParams]

theorem keys_append (a b : PyDict) : keys (a ++ b) = keys a ++ keys b := by
  simp [keys]

theorem keys_presentEntries_subset (l : List (String × Option PyVal)) (k : String)
    (h : k ∈ keys (presentEntries l)) : k ∈ l.map Prod.fst := by
  induction l with
  | nil => simp [presentEntries, keys] at h
  | cons hd tl ih =>
    rcases hd with ⟨key, val⟩
    rcases val with _ | v
    · simp only [presentEntries, List.filterMap_cons] at h
      simp only [List.map_cons, List.mem_cons]
      exact Or.inr (ih h)
    · simp only [presentEntries, List.filterMap_cons, Option.map_some', keys,
        List.map_cons, List.mem_cons] at h
      simp only [List.map_cons, List.mem_cons]
      rcases h with h | h
      · exact Or.inl h
      · exact Or.inr (ih h)

theorem keys_sentParams_subset (l : PyDict) (k : String)
    (h : k ∈ keys (sentParams l)) : k ∈ keys l := by
  simp only [keys, sentParams, List.mem_map] at h ⊢
  rcases h with ⟨kv, hkv, hk⟩
  exact ⟨kv, (List.mem_filter.mp hkv).1, hk⟩

theorem keys_dropNoneValues_subset (l : List (String × Option String)) (k : String)
    (h : k ∈ (dropNoneValues l).map Prod.fst) : k ∈ l.map Prod.fst := by
  induction l with
  | nil => simp [dropNoneValues] at h
  | cons hd tl ih =>
    rcases hd with ⟨key, val⟩
    rcases val with _ | v
    · simp only [dropNoneValues, List.filterMap_cons] at h
      simp only [List.map_cons, List.mem_cons]
      exact Or.inr (ih h)
    · simp only [dropNoneValues, List.filterMap_cons, Option.map_some',
        List.map_cons, List.mem_cons] at h
      simp only [List.map_cons, List.mem_cons]
      rcases h with h | h
      · exact Or.inl h
      · exact Or.inr (ih h)

theorem dropNoneValues_map_some (l : List (String × String)) :
    dropNoneValues (l.map fun kv => (kv.1, some kv.2)) = l := by
  induction l with
  | nil => rfl
  | cons hd tl ih =>
    simp only [List.map_cons, dropNoneValues, List.filterMap_cons,
      Option.map_some'] at ih ⊢
    rw [ih]

/-- With a None client, the headers the web GET actually carries are the
fixed pair plus the present location headers — the subscription-token entry
is deleted by the header merge. -/
theorem webRequest_none_headers (b : WebBody) :
    (webRequest none b).headers
      = [("Accept", "application/json"), ("Accept-Encoding", "gzip")]
          ++ webLocHeaders b := by
  simp only [webRequest, webHeaders, dropNoneValues, List.filterMap_append,
    List.filterMap_cons, Option.map_some']
  rw [show (List.filterMap (fun kv => Option.map (fun v => (kv.1, v)) kv.2)
      ((webLocHeaders b).map fun kv => (kv.1, some kv.2))) = webLocHeaders b
    from dropNoneValues_map_some (webLocHeaders b)]
  rfl

/-- A key absent from the kept part of the base dict and from the optional
key list never reaches the outbound (sent) parameter set. -/
theorem key_not_sent (k : String) (base : PyDict) (opts : List (String × Option PyVal))
    (hbase : k ∉ keys (sentParams base)) (hopts : k ∉ opts.map Prod.fst) :
    k ∉ keys (sentParams (base ++ presentEntries opts)) := by
  intro h
  rw [sentParams_append, keys_append] at h
  rcases List.mem_append.mp h with h | h
  · exact hbase h
  · exact hopts (keys_presentEntries_subset _ _ (keys_sentParams_subset _ _ h))

/-- The web-search body the dispatcher hands over when the caller supplies
only `query="spacex"`: `arguments.get` yields None for everything else, which
overrides every signature default. -/
def webBodyOmitted : WebBody :=
  WebBody.mk "spacex" none none none none none none none none none none none
    none none none none none none none none none none none none

/-- The image-search body for arguments `query="cats", count=3`. -/
def imageBodyEx : ImageBody := ImageBody.mk "cats" (some 3) none none none none

/-- The news-search body for arguments `query="spacex"` only. -/
def newsBodyOmitted : NewsBody :=
  NewsBody.mk "spacex" none none none none none none none none none none

/-- The video-search body for arguments `query="spacex"` only. -/
def videoBodyOmitted : VideoBody :=
  VideoBody.mk "spacex" none none none none none none none none

/-- A sample upstream JSON body. -/
def sampleBody : PyDict := [("web", PyVal.vStr "ok")]

/-! ## Claims -/

/-- C1: the claim says a registered-tool invocation with the required query
argument returns one textual result whose text is the JSON serialization of
the upstream body.  The code never awaits the async operation, so
`json.dumps` receives a coroutine object, raises TypeError, and every such
invocation instead returns the TypeError text — the upstream body is never
serialized (and the upstream call is never even made). -/
theorem c1_call_tool_coroutine_bug :
    call_tool "brave_search" [("query", PyVal.vStr "cats")]
      = some [ToolContent.text ("Error: " ++ coroutineDumpError)] ∧
    call_tool "brave_image_search" [("query", PyVal.vStr "cats")]
      = some [ToolContent.text ("Error: " ++ coroutineDumpError)] ∧
    call_tool "brave_news_search" [("query", PyVal.vStr "cats")]
      = some [ToolContent.text ("Error: " ++ coroutineDumpError)] ∧
    call_tool "brave_video_search" [("query", PyVal.vStr "cats")]
      = some [ToolContent.text ("Error: " ++ coroutineDumpError)] ∧
    ("Error: " ++ coroutineDumpError) ≠ json_dumps_dict sampleBody := by
  decide

/-- C2 counterexample: with the x-auth-token header absent, the transport
stores `""` in the credential context, and per-invocation resolution returns
that empty string — it does not fall back to the environment default even
when one (here "ENVTOKEN") is configured, contrary to the claim. -/
theorem c2_no_env_fallback_cx :
    get_auth_token (some (transportContextValue none)) (some "ENVTOKEN") = some "" ∧
    (some "" : Option String) ≠ some "ENVTOKEN" := by
  decide

/-- C2 amended: when the header is absent the context is set to the empty
string; resolution then returns that empty string directly for every
environment state (the environment fallback fires only on a context that was
never set, which a transport-handled exchange never has); with the empty
token the image-search invocation returns the missing-token error result
without a network call, even when an environment default exists; resolution
fails only outside any established context with no environment default. -/
theorem c2_empty_context_amended (env : Option String) (b : ImageBody)
    (u : Option PyDict) :
    get_auth_token (some (transportContextValue none)) env = some "" ∧
    get_auth_token none (some "ENVTOKEN") = some "ENVTOKEN" ∧
    get_auth_token none none = none ∧
    brave_image_search_run (some (transportContextValue none)) env b u
      = (missingTokenDict, []) := by
  exact And.intro rfl (And.intro rfl (And.intro rfl rfl))

/-- C2 amended, witnessed at a concrete environment, body and upstream. -/
theorem c2_empty_context_amended_witness :
    get_auth_token (some (transportContextValue none)) (some "ENVTOKEN") = some "" ∧
    get_auth_token none (some "ENVTOKEN") = some "ENVTOKEN" ∧
    get_auth_token none none = none ∧
    brave_image_search_run (some (transportContextValue none)) (some "ENVTOKEN")
      imageBodyEx (some sampleBody) = (missingTokenDict, []) :=
  c2_empty_context_amended (some "ENVTOKEN") imageBodyEx (some sampleBody)

/-- C3 counterexample: invoking a name absent from the registry makes
`call_tool` fall through its if/elif chain and return None — no error payload
naming the unknown tool is produced, contrary to the claim. -/
theorem c3_unknown_tool_cx :
    call_tool "nonexistent_tool" [] = none := by
  decide

/-- C3 amended: for every arguments mapping, invoking a tool name absent from
the registry returns no content at all (Python None) from the dispatch; the
dispatch itself does not raise, but it produces no error payload naming the
tool. -/
theorem c3_unknown_tool_amended (name : String) (args : PyDict)
    (h : name ∉ registryNames) :
    call_tool name args = none := by
  simp only [registryNames, List.mem_cons, List.not_mem_nil, or_false,
    not_or] at h
  obtain ⟨h1, h2, h3, h4⟩ := h
  simp [call_tool, h1, h2, h3, h4]

/-- C3 amended, witnessed at a concrete unknown name. -/
theorem c3_unknown_tool_amended_witness :
    call_tool "unknown_tool" [("query", PyVal.vStr "x")] = none :=
  c3_unknown_tool_amended "unknown_tool" [("query", PyVal.vStr "x")] (by decide)

/-- C7 counterexample: the claim says the video-search operation's own
default for an omitted count is 20, but the signature default
(`count: int = 5`, src/tools/search.py line 317) binds 5. -/
theorem c7_video_count_default_cx :
    (bindVideo "cats" none none none none none none none none).count = some 5 ∧
    (some (5 : Int)) ≠ some (20 : Int) := by
  decide

/-- C7 amended: when the caller omits them, the operations' signature
defaults bind count=5 for web, image, news AND video search, and
safesearch="off" for video search. -/
theorem c7_defaults_amended :
    bindWeb "cats" none none none none none none none none none none none
        none none none none none none none none none none none none
      = WebBody.mk "cats" (some 5) none none none none none none none none
          none none none none none none none none none none none none none
          none ∧
    bindImage "cats" none none none none none
      = ImageBody.mk "cats" (some 5) none none none none ∧
    bindNews "cats" none none none none none none none none none none
      = NewsBody.mk "cats" (some 5) none none none none none none none none
          none ∧
    bindVideo "cats" none none none none none none none none
      = VideoBody.mk "cats" (some 5) (some "off") none none none none none
          none := by
  decide

/-- C4 counterexample: in the exact state an absent x-auth-token header
produces (context value "", no environment default) — a state in which the
image operation treats the credential as missing and returns its error result
with no network call — the web-search operation nevertheless issues the
outbound GET, contrary to the claim that every operation returns an error
without network activity when resolution fails. -/
theorem c4_web_no_precheck_cx :
    brave_image_search_run (some (transportContextValue none)) none imageBodyEx
      (some sampleBody) = (missingTokenDict, []) ∧
    (brave_search_run (some (transportContextValue none)) none webBodyOmitted
      (some sampleBody)).2 ≠ [] := by
  decide

/-- C4 amended: image, news and video search resolve the credential first and
return the missing-token error result with no network call whenever no usable
credential is available (resolution error or empty token).  Web search also
resolves the credential before building the request but never aborts: it
issues the GET in every credential state; on success the upstream body is
passed through regardless of the credential; and on resolution failure (None
client) the request simply goes out without the x-subscription-token header,
which the HTTP layer's header merge deletes. -/
theorem c4_credential_precheck_amended (ctxVal env : Option String)
    (w : WebBody) (i : ImageBody) (n : NewsBody) (v : VideoBody)
    (u : Option PyDict) :
    (get_brave_client ctxVal env = none ∨ get_brave_client ctxVal env = some "" →
      brave_image_search_run ctxVal env i u = (missingTokenDict, []) ∧
      brave_news_search_run ctxVal env n u = (missingTokenDict, []) ∧
      brave_video_search_run ctxVal env v u = (missingTokenDict, [])) ∧
    (brave_search_run ctxVal env w u).2
      = [webRequest (get_brave_client ctxVal env) w] ∧
    (∀ body, u = some body → (brave_search_run ctxVal env w u).1 = body) ∧
    (get_brave_client ctxVal env = none →
      "x-subscription-token"
        ∉ ((webRequest (get_brave_client ctxVal env) w).headers).map Prod.fst) := by
  refine ⟨?_, ?_, ?_, ?_⟩
  · intro h
    rcases h with h | h <;>
      refine ⟨?_, ?_, ?_⟩ <;>
        simp [brave_image_search_run, brave_news_search_run,
          brave_video_search_run, h]
  · cases u <;> rfl
  · intro bd hb
    subst hb
    rfl
  · intro h
    rw [h, webRequest_none_headers]
    intro hmem
    rw [List.map_append, List.mem_append] at hmem
    rcases hmem with hmem | hmem
    · simp at hmem
    · exact (by simp [webLocHeaderEntries] :
        "x-subscription-token" ∉ (webLocHeaderEntries w).map Prod.fst)
        (keys_dropNoneValues_subset _ _ hmem)

/-- C4 amended, witnessed with a failed resolution (no context value, no
environment default) and, for the pre-checking operations, the
empty-credential state. -/
theorem c4_credential_precheck_amended_witness :
    brave_image_search_run (some "") none imageBodyEx (some sampleBody)
      = (missingTokenDict, []) ∧
    (brave_search_run none none webBodyOmitted (some sampleBody)).2
      = [webRequest (get_brave_client none none) webBodyOmitted] ∧
    (brave_search_run none none webBodyOmitted (some sampleBody)).1 = sampleBody ∧
    "x-subscription-token"
      ∉ ((webRequest (get_brave_client none none) webBodyOmitted).headers).map
          Prod.fst :=
  And.intro
    ((c4_credential_precheck_amended (some "") none webBodyOmitted imageBodyEx
        newsBodyOmitted videoBodyOmitted (some sampleBody)).1 (Or.inr rfl)).1
    (And.intro
      (c4_credential_precheck_amended none none webBodyOmitted imageBodyEx
        newsBodyOmitted videoBodyOmitted (some sampleBody)).2.1
      (And.intro
        ((c4_credential_precheck_amended none none webBodyOmitted imageBodyEx
          newsBodyOmitted videoBodyOmitted (some sampleBody)).2.2.1 sampleBody rfl)
        ((c4_credential_precheck_amended none none webBodyOmitted imageBodyEx
          newsBodyOmitted videoBodyOmitted (some sampleBody)).2.2.2 rfl)))

/-- C5: credential isolation across concurrent exchanges — the credential
store is the per-context ContextVar, modelled as a slot per exchange, never a
single process-wide value: after two exchanges with distinct tokens have both
connected, resolution under the first exchange yields its own token and
resolution under the second yields the other, for every environment state. -/
theorem c5_credential_isolation (s : Store) (e1 e2 : Nat) (t1 t2 : String)
    (env : Option String) (hne : e1 ≠ e2) (ht : t1 ≠ t2) :
    get_auth_token
        (ctxGet (transportConnect (transportConnect s e1 (some t1)).1 e2 (some t2)).1 e1)
        env = some t1 ∧
    get_auth_token
        (ctxGet (transportConnect (transportConnect s e1 (some t1)).1 e2 (some t2)).1 e2)
        env = some t2 ∧
    (some t1 : Option String) ≠ some t2 := by
  refine ⟨?_, ?_, by simpa using ht⟩
  · simp [transportConnect, ctxSet, ctxGet, transportContextValue, hne,
      get_auth_token]
  · simp [transportConnect, ctxSet, ctxGet, transportContextValue,
      get_auth_token]

/-- C5, witnessed at two concrete exchanges with distinct tokens. -/
theorem c5_credential_isolation_witness :
    get_auth_token
        (ctxGet (transportConnect (transportConnect (fun _ => none) 0 (some "TOKEN-A")).1
          1 (some "TOKEN-B")).1 0) none = some "TOKEN-A" ∧
    get_auth_token
        (ctxGet (transportConnect (transportConnect (fun _ => none) 0 (some "TOKEN-A")).1
          1 (some "TOKEN-B")).1 1) none = some "TOKEN-B" ∧
    (some "TOKEN-A" : Option String) ≠ some "TOKEN-B" :=
  c5_credential_isolation (fun _ => none) 0 1 "TOKEN-A" "TOKEN-B" none
    (by decide) (by decide)

/-- C6: on every exit path of an exchange — normal completion, error, or
cancellation — and on both transports, the finally-guarded reset restores the
credential store to its prior state before the exchange ends. -/
theorem c6_context_restored (s : Store) (e : Nat) (hdr : Option String)
    (p : ExitPath) :
    handle_sse_ctx s e hdr p = s ∧ handle_streamable_http_ctx s e hdr p = s := by
  constructor <;>
    (cases p <;>
      (funext i
       by_cases h : i = e <;>
         simp [handle_sse_ctx, handle_streamable_http_ctx, transportConnect,
           ctxReset, ctxSet, ctxGet, h]))

/-- C6, witnessed at a concrete store, exchange, header and exit path. -/
theorem c6_context_restored_witness :
    handle_sse_ctx (fun _ => none) 0 (some "T") ExitPath.error = (fun _ => none) ∧
    handle_streamable_http_ctx (fun _ => none) 0 (some "T") ExitPath.cancelled
      = (fun _ => none) :=
  And.intro
    (c6_context_restored (fun _ => none) 0 (some "T") ExitPath.error).1
    (c6_context_restored (fun _ => none) 0 (some "T") ExitPath.cancelled).2

/-- C8: for the image-search operation, every optional parameter whose value
is absent is omitted from the params dict entirely; in particular, arguments
query="cats", count=3 (as marshalled by the dispatcher: every other optional
argument arrives as None) produce exactly q="cats" and count=3. -/
theorem c8_image_param_omission (b : ImageBody) :
    (b.search_lang = none → "search_lang" ∉ keys (braveImageParams b)) ∧
    (b.country = none → "country" ∉ keys (braveImageParams b)) ∧
    (b.safesearch = none → "safesearch" ∉ keys (braveImageParams b)) ∧
    (b.spellcheck = none → "spellcheck" ∉ keys (braveImageParams b)) ∧
    braveImageParams imageBodyEx = [("q", PyVal.vStr "cats"), ("count", PyVal.vInt 3)] := by
  obtain ⟨q, c, sl, co, ss, sp⟩ := b
  refine ⟨?_, ?_, ?_, ?_, by decide⟩ <;>
    (rcases sl with _ | x <;> rcases co with _ | y <;> rcases ss with _ | z <;>
       rcases sp with _ | w <;> intro h <;>
         simp_all [braveImageParams, imageOpts, presentEntries, keys])

/-- C8, witnessed at the concrete body of the claim's instance. -/
theorem c8_image_param_omission_witness :
    "search_lang" ∉ keys (braveImageParams imageBodyEx) ∧
    braveImageParams imageBodyEx
      = [("q", PyVal.vStr "cats"), ("count", PyVal.vInt 3)] :=
  And.intro ((c8_image_param_omission imageBodyEx).1 rfl)
    (c8_image_param_omission imageBodyEx).2.2.2.2

/-- C9: for each of the four registered tools, an invocation whose arguments
mapping omits the required query field returns a tool-result error naming the
field ("Error: \x27query\x27", from the caught KeyError) rather than a raised
fault — the dispatch always returns a content list. -/
theorem c9_missing_query_error (name : String) (args : PyDict)
    (hn : name ∈ registryNames) (hq : dictGet args "query" = none) :
    call_tool name args
      = some [ToolContent.text ("Error: " ++ keyErrorMsg "query")] := by
  fin_cases hn <;> simp [call_tool, dispatchBranch, hq]

/-- C9, witnessed at an empty arguments mapping on the web-search tool. -/
theorem c9_missing_query_error_witness :
    call_tool "brave_search" []
      = some [ToolContent.text ("Error: " ++ keyErrorMsg "query")] :=
  c9_missing_query_error "brave_search" [] (by decide) rfl

/-- C10 counterexample: when the dispatcher marshals an invocation that omits
count, the operation receives count=None; the params dict then still contains
the key count, but its value is None and the HTTP layer drops None-valued
parameters, so the outbound request does not include count — the upstream
default for it is exercised, contrary to the claim. -/
theorem c10_count_dropped_cx :
    "count" ∈ keys (braveSearchParams webBodyOmitted) ∧
    "count" ∉ keys (sentParams (braveSearchParams webBodyOmitted)) := by
  decide

/-- C10 amended: for each operation the params dict always contains the keys
q and count (and safesearch for video), and q — always a string — is always
transmitted; but when an operation receives None for count (as the dispatcher
passes for an omitted argument) the outbound request omits count, and
likewise for video's safesearch, so the upstream defaults for those keys can
be exercised. -/
theorem c10_sent_params_amended (w : WebBody) (i : ImageBody) (n : NewsBody)
    (v : VideoBody) :
    ("q" ∈ keys (braveSearchParams w) ∧ "count" ∈ keys (braveSearchParams w)) ∧
    ("q" ∈ keys (braveImageParams i) ∧ "count" ∈ keys (braveImageParams i)) ∧
    ("q" ∈ keys (braveNewsParams n) ∧ "count" ∈ keys (braveNewsParams n)) ∧
    ("q" ∈ keys (braveVideoParams v) ∧ "count" ∈ keys (braveVideoParams v) ∧
      "safesearch" ∈ keys (braveVideoParams v)) ∧
    "q" ∈ keys (sentParams (braveSearchParams w)) ∧
    "q" ∈ keys (sentParams (braveImageParams i)) ∧
    "q" ∈ keys (sentParams (braveNewsParams n)) ∧
    "q" ∈ keys (sentParams (braveVideoParams v)) ∧
    (w.count = none → "count" ∉ keys (sentParams (braveSearchParams w))) ∧
    (i.count = none → "count" ∉ keys (sentParams (braveImageParams i))) ∧
    (n.count = none → "count" ∉ keys (sentParams (braveNewsParams n))) ∧
    (v.count = none → "count" ∉ keys (sentParams (braveVideoParams v))) ∧
    (v.safesearch = none → "safesearch" ∉ keys (sentParams (braveVideoParams v))) := by
  refine ⟨⟨?_, ?_⟩, ⟨?_, ?_⟩, ⟨?_, ?_⟩, ⟨?_, ?_, ?_⟩, ?_, ?_, ?_, ?_, ?_, ?_, ?_, ?_, ?_⟩
  · simp [braveSearchParams, keys]
  · simp [braveSearchParams, keys]
  · simp [braveImageParams, keys]
  · simp [braveImageParams, keys]
  · simp [braveNewsParams, keys]
  · simp [braveNewsParams, keys]
  · simp [braveVideoParams, keys]
  · simp [braveVideoParams, keys]
  · simp [braveVideoParams, keys]
  · simp [braveSearchParams, sentParams_append, keys_append, sentParams, keys,
      PyVal.isNone]
  · simp [braveImageParams, sentParams_append, keys_append, sentParams, keys,
      PyVal.isNone]
  · simp [braveNewsParams, sentParams_append, keys_append, sentParams, keys,
      PyVal.isNone]
  · simp [braveVideoParams, sentParams_append, keys_append, sentParams, keys,
      PyVal.isNone]
  · intro hc
    refine key_not_sent _ _ _ ?_ ?_
    · rw [hc]
      simp [sentParams, keys, PyVal.isNone, optIntVal]
    · simp [webOpts]
  · intro hc
    refine key_not_sent _ _ _ ?_ ?_
    · rw [hc]
      simp [sentParams, keys, PyVal.isNone, optIntVal]
    · simp [imageOpts]
  · intro hc
    refine key_not_sent _ _ _ ?_ ?_
    · rw [hc]
      simp [sentParams, keys, PyVal.isNone, optIntVal]
    · simp [newsOpts]
  · intro hc
    refine key_not_sent _ _ _ ?_ ?_
    · rw [hc]
      rcases v.safesearch with _ | z <;>
        simp [sentParams, keys, PyVal.isNone, optIntVal, optStrVal]
    · simp [videoOpts]
  · intro hs
    refine key_not_sent _ _ _ ?_ ?_
    · rw [hs]
      rcases v.count with _ | z <;>
        simp [sentParams, keys, PyVal.isNone, optIntVal, optStrVal]
    · simp [videoOpts]

/-- C10 amended, witnessed at the dispatcher-marshalled omitted-count body. -/
theorem c10_sent_params_amended_witness :
    "q" ∈ keys (sentParams (braveSearchParams webBodyOmitted)) ∧
    "count" ∉ keys (sentParams (braveSearchParams webBodyOmitted)) ∧
    "safesearch" ∉ keys (sentParams (braveVideoParams videoBodyOmitted)) :=
  And.intro
    (c10_sent_params_amended webBodyOmitted imageBodyEx newsBodyOmitted
      videoBodyOmitted).2.2.2.2.1
    (And.intro
      ((c10_sent_params_amended webBodyOmitted imageBodyEx newsBodyOmitted
        videoBodyOmitted).2.2.2.2.2.2.2.2.1 rfl)
      ((c10_sent_params_amended webBodyOmitted imageBodyEx newsBodyOmitted
        videoBodyOmitted).2.2.2.2.2.2.2.2.2.2.2.2 rfl))

end BraveMCP
